import Mathlib

/-!
Shallow embedding of the SignalR/Web PubSub sample applications
(`webpubsub/chatApp` and `azSignalrFunctionAppTest`) together with the
parts of the client-side invoke contract that the repository only calls
into.  Handlers are translated function-for-function from the Python
source; Python exceptions are modelled with `Except`, JSON values with an
explicit inductive type, and HTTP responses as records.
-/

namespace SignalRSample

/-- A parsed JSON value, as produced by Python's `json.loads`.  Object
fields are kept in insertion order; `json.loads` collapses duplicate keys
(last occurrence wins), so an `obj` never carries two bindings for the
same key. -/
inductive Json where
  | str : String → Json
  | num : Int → Json
  | bool : Bool → Json
  | null : Json
  | arr : List Json → Json
  | obj : List (String × Json) → Json

/-- The Python exceptions that the embedded handlers can raise. -/
inductive PyErr where
  | attributeError
  | typeError
  | keyError
  | valueError
  | indexError
  | jsonDecodeError
  | viewReturnedNone
deriving DecidableEq

/-- Characterwise lowercase, modelling Python's `str.lower` (the headers
and keys involved are ASCII). -/
def pyLower (s : String) : String := String.mk (s.data.map Char.toLower)

/-- Prefix test on character lists (executable in the kernel). -/
def leadsWith : List Char → List Char → Bool
  | [], _ => true
  | _ :: _, [] => false
  | p :: ps, c :: cs => p == c && leadsWith ps cs

/-- Models Python's `str.startswith`. -/
def pyStartsWith (s pre : String) : Bool := leadsWith pre.data s.data

/-- Occurrence test for Python's substring operator `pat in s`. -/
def occursIn (pat : List Char) : List Char → Bool
  | [] => pat.isEmpty
  | c :: rest => leadsWith pat (c :: rest) || occursIn pat rest

/-- Models Python's `pat in s` on strings. -/
def strContains (s pat : String) : Bool := occursIn pat.data s.data

/-- Models Python's slice `s[n:]`. -/
def pyDropChars (s : String) (n : Nat) : String := String.mk (s.data.drop n)

/-- Python truthiness of a JSON-decoded value (`if x:`). -/
def pyTruthy : Json → Bool
  | .str s => !(s == "")
  | .num n => !(n == 0)
  | .bool b => b
  | .null => false
  | .arr xs => !xs.isEmpty
  | .obj fs => !fs.isEmpty

/-- A single-quote character, written via its code point. -/
def sq : String := String.singleton (Char.ofNat 39)

mutual
/-- Approximates Python's `repr` on JSON-decoded values (used only through
`pyStr` for f-string interpolation of containers; quote-switching for
strings that contain quotes is not reproduced). -/
def pyRepr : Json → String
  | .str s => sq ++ s ++ sq
  | .num n => toString n
  | .bool b => if b then "True" else "False"
  | .null => "None"
  | .arr xs => "[" ++ String.intercalate ", " (pyReprList xs) ++ "]"
  | .obj fs => "\x7b" ++ String.intercalate ", " (pyReprFields fs) ++ "\x7d"

/-- `repr` of the elements of a JSON array. -/
def pyReprList : List Json → List String
  | [] => []
  | x :: xs => pyRepr x :: pyReprList xs

/-- `repr` of the fields of a JSON object. -/
def pyReprFields : List (String × Json) → List String
  | [] => []
  | (k, v) :: fs => (sq ++ k ++ sq ++ ": " ++ pyRepr v) :: pyReprFields fs
end

/-- Models Python's `str()` on a JSON-decoded value (f-string
interpolation). -/
def pyStr : Json → String
  | .str s => s
  | j => pyRepr j

/-- Models `d.get(key, default)` on a JSON-decoded value: returns the
binding if the value is a dict, the default if the key is absent, and
raises `AttributeError` when the value is not a dict. -/
def pyDictGet (j : Json) (key : String) (dflt : Json) : Except PyErr Json :=
  match j with
  | .obj fields => .ok ((List.lookup key fields).getD dflt)
  | _ => .error .attributeError

/-- Models `d.get(key)` (default `None`) on a JSON-decoded value. -/
def pyDictGetNone (j : Json) (key : String) : Except PyErr Json :=
  pyDictGet j key .null

/-- Models `d[key]` with a string key: `KeyError` when absent,
`TypeError` when the value is not a dict. -/
def pySubscriptKey (j : Json) (key : String) : Except PyErr Json :=
  match j with
  | .obj fields =>
    match List.lookup key fields with
    | some v => .ok v
    | none => .error .keyError
  | _ => .error .typeError

/-- Models `x[0]` on a JSON-decoded value: first element of a list, first
character of a string, `KeyError` for dicts (integer key absent),
`TypeError` otherwise. -/
def pySubscriptZero (j : Json) : Except PyErr Json :=
  match j with
  | .arr (x :: _) => .ok x
  | .arr [] => .error .indexError
  | .str s =>
    match s.data with
    | c :: _ => .ok (.str (String.singleton c))
    | [] => .error .indexError
  | .obj _ => .error .keyError
  | _ => .error .typeError

/-- Models `time.sleep(x)` on a JSON-decoded value: accepts numbers
(non-negative) and booleans, raises `ValueError` for negative numbers and
`TypeError` for everything else. -/
def pySleep : Json → Except PyErr Unit
  | .num n => if n < 0 then .error .valueError else .ok ()
  | .bool _ => .ok ()
  | _ => .error .typeError

/-- An HTTP request body as seen by the handlers, classified by how
Python's `json.loads` behaves on it: `empty` is the empty string,
`invalid s` is a non-empty body that does not parse as JSON, and
`valid j s` is a non-empty body `s` whose parse is `j`. -/
inductive RawBody where
  | empty
  | invalid : String → RawBody
  | valid : Json → String → RawBody

/-- The raw request text, `request.get_data(as_text=True)`. -/
def RawBody.raw : RawBody → String
  | .empty => ""
  | .invalid s => s
  | .valid _ s => s

/-- Models the idiom `json.loads(raw) if raw else {}` wrapped in
`try/except JSONDecodeError: payload = {}`: empty and malformed bodies
both fall back to the empty dict. -/
def json_loads_or_empty : RawBody → Json
  | .empty => .obj []
  | .invalid _ => .obj []
  | .valid j _ => j

/-- Models a bare `json.loads(raw)`: raises on empty or malformed input. -/
def json_loads : RawBody → Except PyErr Json
  | .empty => .error .jsonDecodeError
  | .invalid _ => .error .jsonDecodeError
  | .valid j _ => .ok j

/-- An HTTP response body: empty, a raw string, or a JSON document
produced by `jsonify`/`json.dumps`. -/
inductive RespBody where
  | empty
  | text : String → RespBody
  | json : Json → RespBody

/-- An HTTP response as the Flask handlers build it. -/
structure HttpResponse where
  status : Nat
  contentType : String
  body : RespBody
  headers : List (String × String)

/-- Flask's default `Content-Type` for responses that do not set one. -/
def flaskDefaultCT : String := "text/html; charset=utf-8"

/-- Case-insensitive header lookup (first match), as Flask's
`request.headers.get`. -/
def headerGet (hs : List (String × String)) (name : String) : Option String :=
  (hs.find? (fun p => pyLower p.1 == pyLower name)).map (·.2)

/-- An HTTP request: method is handled per route, so only headers,
content type and body are carried. -/
structure Request where
  headers : List (String × String)
  contentType : Option String
  body : RawBody

/-! ## Upstream event handler server
`src/webpubsub/chatApp/invoke_event/invoke_event_server.py` -/

namespace InvokeServer

/-- `handle_abuse_protection`: the `OPTIONS /eventhandler` route.  The
origin header is only logged; the response is always 200 with
`WebHook-Allowed-Origin: *`. -/
def handle_abuse_protection (hs : List (String × String)) : HttpResponse :=
  let _origin := (headerGet hs "WebHook-Request-Origin").getD ""
  ⟨200, flaskDefaultCT, .empty, [("WebHook-Allowed-Origin", "*")]⟩

/-- `handle_connect`: accepts the connection with `jsonify({}), 200`
(`request.get_json(silent=True)` never raises). -/
def handle_connect (_body : RawBody) : Except PyErr HttpResponse :=
  .ok ⟨200, "application/json", .json (.obj []), []⟩

/-- `_handle_process_order`: parses the body leniently, reads
`orderId` with default `"unknown"`, and returns a JSON result with
status 200. -/
def handle_process_order (_content_type : String) (body : RawBody) :
    Except PyErr HttpResponse :=
  let payload := json_loads_or_empty body
  match pyDictGet payload "orderId" (.str "unknown") with
  | .error e => .error e
  | .ok order_id =>
    .ok ⟨200, "application/json",
      .json (.obj [("status", .str "completed"), ("orderId", order_id),
        ("message", .str ("Order " ++ pyStr order_id ++ " processed successfully"))]),
      []⟩

/-- `_handle_echo`: echoes the raw body back with status 200, matching
the request's content type (JSON / text / anything else as
octet-stream). -/
def handle_echo (content_type : String) (raw : String) : Except PyErr HttpResponse :=
  if strContains content_type "application/json" then
    .ok ⟨200, "application/json", .text raw, []⟩
  else if strContains content_type "text/plain" then
    .ok ⟨200, "text/plain", .text raw, []⟩
  else
    .ok ⟨200, "application/octet-stream", .text raw, []⟩

/-- `_handle_slow_event`: parses the body leniently, sleeps for
`payload.get("delay", 30)` seconds, then returns
`jsonify({"status": "completed", "delayed": delay}), 200`. -/
def handle_slow_event (_content_type : String) (body : RawBody) :
    Except PyErr HttpResponse :=
  let payload := json_loads_or_empty body
  match pyDictGet payload "delay" (.num 30) with
  | .error e => .error e
  | .ok delay =>
    match pySleep delay with
    | .error e => .error e
    | .ok _ =>
      .ok ⟨200, "application/json",
        .json (.obj [("status", .str "completed"), ("delayed", delay)]), []⟩

/-- `handle_user_event`: dispatches user custom events; unknown event
names are echoed back with the original content type. -/
def handle_user_event (event_name content_type : String) (body : RawBody) :
    Except PyErr HttpResponse :=
  if event_name == "processOrder" then handle_process_order content_type body
  else if event_name == "echo" then handle_echo content_type body.raw
  else if event_name == "slowEvent" then handle_slow_event content_type body
  else .ok ⟨200, content_type, .text body.raw, []⟩

/-- `handle_event`: the `POST /eventhandler` route, dispatching on the
`ce-type` header (missing headers default to the empty string). -/
def handle_event (req : Request) : Except PyErr HttpResponse :=
  let ce_type := (headerGet req.headers "ce-type").getD ""
  let ce_event := (headerGet req.headers "ce-eventName").getD ""
  let content_type := req.contentType.getD ""
  if ce_type == "azure.webpubsub.sys.connect" then
    handle_connect req.body
  else if ce_type == "azure.webpubsub.sys.connected"
      || ce_type == "azure.webpubsub.sys.disconnected" then
    .ok ⟨200, flaskDefaultCT, .empty, []⟩
  else if pyStartsWith ce_type "azure.webpubsub.user." then
    handle_user_event ce_event content_type req.body
  else
    .ok ⟨400, flaskDefaultCT, .empty, []⟩

end InvokeServer

/-! ## Chat application server
`src/webpubsub/chatApp/server.py` -/

namespace ChatServer

/-- HTTP methods accepted by the `/eventhandler` route. -/
inductive Method where
  | GET
  | POST
  | OPTIONS
deriving DecidableEq

/-- `negotiate`: the `GET /negotiate` route.  `token_url` is the `url`
field of the access token returned by the external
`service.get_client_access_token` call for the requested user id.  A
missing or empty (`if not id:`) id yields 400; otherwise the response is
the dict `{'url': token['url']}` with status 200. -/
def negotiate (id : Option String) (token_url : String) : HttpResponse :=
  if (id.getD "") == "" then
    ⟨400, flaskDefaultCT, .text "missing user id", []⟩
  else
    ⟨200, "application/json", .json (.obj [("url", .str token_url)]), []⟩

/-- The metadata header marker, `'x-webpubsub-metadata-'` (the source's
local variable is named after the marker itself). -/
def metadataMarker : String := "x-webpubsub-metadata-"

/-- Models a Python dict assignment `d[k] = v` on an insertion-ordered
association list: replace in place if the key exists, append otherwise. -/
def dictSet : List (String × String) → String → String → List (String × String)
  | [], k, v => [(k, v)]
  | (k0, v0) :: rest, k, v =>
    if k0 == k then (k0, v) :: rest else (k0, v0) :: dictSet rest k v

/-- `extract_metadata`: collects every header whose name starts
(case-insensitively) with the metadata marker, keyed by the lowercased
remainder of the header name. -/
def extract_metadata (headers : List (String × String)) : List (String × String) :=
  headers.foldl
    (fun metadata kv =>
      if pyStartsWith (pyLower kv.1) metadataMarker then
        dictSet metadata (pyLower (pyDropChars kv.1 metadataMarker.length)) kv.2
      else metadata)
    []

/-- Header `p` is a metadata header whose lowercased remainder is `k`. -/
def metaMatch (k : String) (p : String × String) : Bool :=
  pyStartsWith (pyLower p.1) metadataMarker
    && (pyLower (pyDropChars p.1 metadataMarker.length) == k)

/-- `None` for a missing string turned into JSON `null` by `json.dumps`. -/
def jsonOfOptStr : Option String → Json
  | some s => .str s
  | none => .null

/-- The `validation` object built in the custom user event branch. -/
def validationObj (metadata : List (String × String)) : Json :=
  .obj [("metadataReceivedByServer", .bool (!metadata.isEmpty)),
    ("receivedMetadataKeys", .arr (metadata.map (fun p => .str p.1))),
    ("receivedMetadata", .obj (metadata.map (fun p => (p.1, .str p.2))))]

/-- The custom user event branch of `handle_event` (events sent via
`sendEvent` other than `message`); `now` is `int(time.time())` used by
the `metadataOnly` branch. -/
def handle_custom_user_event (event_name user_id : Option String)
    (metadata : List (String × String)) (body : RawBody) (now : Int) :
    Except PyErr HttpResponse :=
  let data := body.raw
  let metadata_received := !metadata.isEmpty
  let validation := validationObj metadata
  if event_name == some "echo" then
    let response_data : Json := .obj [("echo", .str data),
      ("from", jsonOfOptStr user_id), ("validation", validation)]
    let base := [("X-WebPubSub-Metadata-EventType", "echo-response"),
      ("X-WebPubSub-Metadata-ProcessedBy", "server"),
      ("X-WebPubSub-Metadata-ServerValidation",
        if metadata_received then "metadata-received" else "no-metadata")]
    let h1 := match List.lookup "traceid" metadata with
      | some v => [("X-WebPubSub-Metadata-EchoedTraceId", v)]
      | none => []
    let h2 := match List.lookup "topic" metadata with
      | some v => [("X-WebPubSub-Metadata-EchoedTopic", v)]
      | none => []
    let h3 := match List.lookup "priority" metadata with
      | some v => [("X-WebPubSub-Metadata-EchoedPriority", v)]
      | none => []
    .ok ⟨200, "application/json", .json response_data, base ++ h1 ++ h2 ++ h3⟩
  else if event_name == some "processDocument" then
    let response_data : Json := .obj [("pages", .num 12), ("wordCount", .num 4500),
      ("validation", validation)]
    let base := [("X-WebPubSub-Metadata-Status", "completed"),
      ("X-WebPubSub-Metadata-ProcessingTime", "142ms"),
      ("X-WebPubSub-Metadata-OutputFile", "report-processed.pdf")]
    let h1 := match List.lookup "traceid" metadata with
      | some v => [("X-WebPubSub-Metadata-EchoedTraceId", v)]
      | none => []
    let h2 := match List.lookup "filename" metadata with
      | some v => [("X-WebPubSub-Metadata-EchoedFilename", v)]
      | none => []
    .ok ⟨200, "application/json", .json response_data, base ++ h1 ++ h2⟩
  else if event_name == some "metadataOnly" then
    let base := [("X-WebPubSub-Metadata-Status", "accepted"),
      ("X-WebPubSub-Metadata-JobId", "job-" ++ toString now)]
    let h1 := match List.lookup "traceid" metadata with
      | some v => [("X-WebPubSub-Metadata-EchoedTraceId", v)]
      | none => []
    .ok ⟨204, flaskDefaultCT, .empty, base ++ h1⟩
  else if event_name == some "errorTest" then
    .ok ⟨500, "text/plain", .text "Simulated error for testing",
      [("X-WebPubSub-Metadata-TraceId", (List.lookup "traceid" metadata).getD "unknown"),
       ("X-WebPubSub-Metadata-Reason", "simulated-error")]⟩
  else
    let response_data : Json := .obj [("received", jsonOfOptStr event_name),
      ("validation", validation)]
    .ok ⟨200, "application/json", .json response_data,
      [("X-WebPubSub-Metadata-Status", "acknowledged"),
       ("X-WebPubSub-Metadata-ServerValidation",
         if metadata_received then "metadata-received" else "no-metadata")]⟩

/-- The `azure.webpubsub.sys.connect` branch: reads
`json.loads(body)['query']`, takes `query.get('id')`, and answers with
`{'userId': id[0]}` or 401. -/
def handle_sys_connect (body : RawBody) : Except PyErr HttpResponse :=
  match json_loads body with
  | .error e => .error e
  | .ok j =>
    match pySubscriptKey j "query" with
    | .error e => .error e
    | .ok query =>
      match pyDictGetNone query "id" with
      | .error e => .error e
      | .ok id_element =>
        let step : Except PyErr (Option Json) :=
          if pyTruthy id_element then
            match pySubscriptZero id_element with
            | .error e => .error e
            | .ok u => .ok (some u)
          else .ok none
        match step with
        | .error e => .error e
        | .ok user_id =>
          match user_id with
          | some u =>
            if pyTruthy u then
              .ok ⟨200, "application/json", .json (.obj [("userId", u)]), []⟩
            else .ok ⟨401, flaskDefaultCT, .text "missing user id", []⟩
          | none => .ok ⟨401, flaskDefaultCT, .text "missing user id", []⟩

/-- `handle_event`: the `/eventhandler` route of the chat server.  The
`service.send_to_all` call in the `user.message` branch is an external
relay effect and is not part of the returned value; falling off the end
of the Python function returns `None`, which Flask rejects — modelled as
`viewReturnedNone`. -/
def handle_event (method : Method) (hs : List (String × String))
    (body : RawBody) (now : Int) : Except PyErr HttpResponse :=
  if method = .OPTIONS ∨ method = .GET then
    match headerGet hs "WebHook-Request-Origin" with
    | some o =>
      if o == "" then .error .viewReturnedNone
      else .ok ⟨200, flaskDefaultCT, .empty, [("WebHook-Allowed-Origin", "*")]⟩
    | none => .error .viewReturnedNone
  else
    let user_id := headerGet hs "ce-userid"
    let event_name := headerGet hs "ce-eventname"
    let metadata := extract_metadata hs
    match headerGet hs "ce-type" with
    | none => .error .attributeError
    | some t =>
      if t == "azure.webpubsub.sys.connect" then
        handle_sys_connect body
      else if t == "azure.webpubsub.sys.connected" then
        match user_id with
        | some u => .ok ⟨200, flaskDefaultCT, .text (u ++ " connected"), []⟩
        | none => .error .typeError
      else if t == "azure.webpubsub.sys.disconnected" then
        .ok ⟨204, flaskDefaultCT, .empty, []⟩
      else if t == "azure.webpubsub.user.message" then
        .ok ⟨204, "text/plain", .empty, []⟩
      else if pyStartsWith t "azure.webpubsub.user."
          && !(t == "azure.webpubsub.user.message") then
        handle_custom_user_event event_name user_id metadata body now
      else
        .ok ⟨400, flaskDefaultCT, .text "Bad Request", []⟩

end ChatServer

/-! ## Azure Function timer broadcaster
`src/azSignalrFunctionAppTest/function_app.py` -/

namespace FunctionApp

/-- The module-level mutable state `etag` / `start_count`.
`start_count` holds whatever `jres['stargazers_count']` produced. -/
structure FState where
  etag : String
  start_count : Json

/-- The response of the polled GitHub endpoint as `requests` exposes it:
status code, optional `ETag` header, and the body (`res.json()` raises
on an empty or malformed body). -/
structure PollResponse where
  status : Nat
  etagHeader : Option String
  body : RawBody

/-- The fixed text of the broadcast message. -/
def broadcastText : String :=
  "Current star count of https://api.github.com/repos/azure/azure-functions-python-worker is: "

/-- The SignalR message set by `broadcast` for a given star count. -/
def broadcastMessage (start_count : Json) : Json :=
  .obj [("target", .str "newMessage"),
    ("arguments", .arr [.str (broadcastText ++ pyStr start_count)])]

/-- The `etag` global after one run: updated only when the response
carries a non-empty `ETag` header (`if res.headers.get('ETag'):`). -/
def nextEtag (s : FState) (res : PollResponse) : String :=
  match res.etagHeader with
  | some e => if e == "" then s.etag else e
  | none => s.etag

/-- The `start_count` global after one run: replaced by
`res.json()['stargazers_count']` only on status 200 (`res.json()` raises
on an empty or malformed body). -/
def nextCount (s : FState) (res : PollResponse) : Except PyErr Json :=
  if res.status == 200 then
    match json_loads res.body with
    | .error e => .error e
    | .ok jres => pySubscriptKey jres "stargazers_count"
  else .ok s.start_count

/-- `broadcast`: one run of the timer-triggered function over the
module-level state; it ends by setting the SignalR output message built
from the current count. -/
def broadcast (s : FState) (res : PollResponse) :
    Except PyErr (FState × Json) :=
  match nextCount s res with
  | .error e => .error e
  | .ok start_count => .ok (⟨nextEtag s res, start_count⟩, broadcastMessage start_count)

end FunctionApp

/-! ## Client-side invoke contract

The invoking client in `invoke_event.py` / `invoke_event_async.py` uses
`azure.messaging.webpubsubclient`, which is not part of this repository;
the definitions below model the correlation-table contract it relies on
from the specification. -/

namespace ClientModel

/-- The declared data type of an invocation payload. -/
inductive WebPubSubDataType where
  | json
  | text
  | binary
deriving DecidableEq

/-- A structured server-reported error (name + message). -/
structure ErrorDetail where
  name : String
  message : String

/-- Modelled from the spec: `InvocationResult` — correlation id, data
type, payload, success flag, optional structured error, produced by the
remote side and consumed exactly once by the matching waiter. -/
structure InvocationResult where
  invocationId : Nat
  dataType : WebPubSubDataType
  data : RespBody
  success : Bool
  error : Option ErrorDetail

/-- The error delivered to a rejected invoke caller; a client-side
cancellation carries no structured detail (`errorDetail = none`). -/
structure InvocationError where
  message : String
  errorDetail : Option ErrorDetail

/-- How one invoke call ends for the caller. -/
inductive InvokeOutcome where
  | resolved : InvocationResult → InvokeOutcome
  | rejected : InvocationError → InvokeOutcome

/-- Modelled from the spec: the client-side cancellation error raised
when the timeout elapses first — it carries no structured error detail,
distinguishing it from a server-reported error. -/
def timeoutCancelError : InvocationError :=
  ⟨"Invocation was cancelled by the client-side timeout", none⟩

/-- Modelled from the spec: the relay selects the outgoing data type from
the upstream HTTP response's content type — `application/json` maps to
json, `text/plain` to text, anything else to binary. -/
def dataTypeOfContentType (ct : String) : WebPubSubDataType :=
  if ct == "application/json" then .json
  else if ct == "text/plain" then .text
  else .binary

/-- Modelled from the spec: the relay turns an upstream HTTP response
into the invocation response delivered on the connection — 2xx means
success, 4xx/5xx are surfaced as a remote error. -/
def relayResponse (invocationId : Nat) (resp : HttpResponse) : InvocationResult :=
  let ok := decide (200 ≤ resp.status ∧ resp.status < 300)
  ⟨invocationId, dataTypeOfContentType resp.contentType, resp.body, ok,
    if ok then none
    else some ⟨"InvocationError", "upstream HTTP status " ++ toString resp.status⟩⟩

/-- Modelled from the spec: the outcome of one invoke call with the given
timeout when the (relayed) response would arrive at `responseAt` — the
timeout elapsing first rejects with the client-side cancellation error,
otherwise the response resolves or rejects the caller according to its
success flag. -/
def invokeOutcome (timeout responseAt : ℚ) (resp : InvocationResult) : InvokeOutcome :=
  if timeout < responseAt then .rejected timeoutCancelError
  else if resp.success then .resolved resp
  else .rejected ⟨"Invocation failed with a remote error", resp.error⟩

/-- Modelled from the spec: the Invocation Correlation Table — ids of
in-flight invocations plus the responses already delivered to their
waiters. -/
structure CorrState where
  pending : List Nat
  resolved : List (Nat × InvocationResult)

/-- Modelled from the spec: delivery of one inbound invocation response —
keyed solely by correlation id; a response for an id that is not pending
(already resolved or never issued) is silently dropped. -/
def deliverResponse (st : CorrState) (r : InvocationResult) : CorrState :=
  if st.pending.contains r.invocationId then
    ⟨st.pending.erase r.invocationId, st.resolved ++ [(r.invocationId, r)]⟩
  else st

/-- Delivery of a sequence of responses in their arrival order. -/
def deliverAll (st : CorrState) (rs : List InvocationResult) : CorrState :=
  rs.foldl deliverResponse st

/-- The response received by the waiter of correlation id `i`, if any. -/
def resultFor (st : CorrState) (i : Nat) : Option InvocationResult :=
  (st.resolved.find? (fun p => p.1 == i)).map (·.2)

/-- The relayed response to one of the concurrent echo invokes of
`invoke_event.py` (text payload, success). -/
def echoResult (i : Nat) (s : String) : InvocationResult :=
  ⟨i, .text, .text s, true, none⟩

end ClientModel

/-! ## Helper lemmas -/

namespace ChatServer

theorem lookup_dictSet (d : List (String × String)) (k v k' : String) :
    List.lookup k' (dictSet d k v) = if k' = k then some v else List.lookup k' d := by
  induction d with
  | nil =>
    by_cases h : k' = k
    · simp [dictSet, List.lookup, h]
    · simp [dictSet, List.lookup, beq_eq_false_iff_ne.mpr h, h]
  | cons p rest ih =>
    obtain ⟨k0, v0⟩ := p
    by_cases h0 : k0 = k
    · subst h0
      by_cases h : k' = k0
      · simp [dictSet, List.lookup, h]
      · simp [dictSet, List.lookup, beq_eq_false_iff_ne.mpr h, h]
    · by_cases h : k' = k0
      · have hk : k' ≠ k := fun hc => h0 (h ▸ hc)
        simp [dictSet, List.lookup, beq_eq_false_iff_ne.mpr h0, h, hk, h0]
      · simp [dictSet, List.lookup, beq_eq_false_iff_ne.mpr h0,
          beq_eq_false_iff_ne.mpr h, h, ih]

theorem lookup_extract_foldl (hs : List (String × String))
    (acc : List (String × String)) (k : String) :
    List.lookup k (hs.foldl
      (fun metadata kv =>
        if pyStartsWith (pyLower kv.1) metadataMarker then
          dictSet metadata (pyLower (pyDropChars kv.1 metadataMarker.length)) kv.2
        else metadata) acc)
    = (match hs.reverse.find? (metaMatch k) with
       | some p => some p.2
       | none => List.lookup k acc) := by
  induction hs generalizing acc with
  | nil => simp
  | cons h t ih =>
    simp only [List.foldl_cons, List.reverse_cons, List.find?_append]
    rw [ih]
    rcases hf : t.reverse.find? (metaMatch k) with _ | p
    · simp only [Option.or]
      by_cases hm : pyStartsWith (pyLower h.1) metadataMarker
      · rw [if_pos hm, lookup_dictSet]
        by_cases hk : k = pyLower (pyDropChars h.1 metadataMarker.length)
        · have hmm : metaMatch k h = true := by
            simp [metaMatch, hm, hk.symm]
          rw [if_pos hk]
          simp [List.find?, hmm]
        · have hmm : metaMatch k h = false := by
            simp only [metaMatch, hm, Bool.true_and]
            exact beq_eq_false_iff_ne.mpr fun hc => hk hc.symm
          rw [if_neg hk]
          simp [List.find?, hmm]
      · have hmb : pyStartsWith (pyLower h.1) metadataMarker = false := by
          revert hm; cases pyStartsWith (pyLower h.1) metadataMarker <;> simp
        have hmm : metaMatch k h = false := by simp [metaMatch, hmb]
        rw [if_neg hm]
        simp [List.find?, hmm]
    · simp [Option.or, hf]

theorem lookup_extract (hs : List (String × String)) (k : String) :
    List.lookup k (extract_metadata hs)
    = (hs.reverse.find? (metaMatch k)).map (·.2) := by
  rw [extract_metadata, lookup_extract_foldl]
  rcases hf : hs.reverse.find? (metaMatch k) with _ | p <;> rfl

end ChatServer

namespace ClientModel

theorem deliverAll_resolved_extends (rs : List InvocationResult) (st : CorrState) :
    ∃ tl, (deliverAll st rs).resolved = st.resolved ++ tl := by
  induction rs generalizing st with
  | nil => exact ⟨[], by simp [deliverAll]⟩
  | cons r rs ih =>
    show ∃ tl, (deliverAll (deliverResponse st r) rs).resolved = _
    obtain ⟨tl, htl⟩ := ih (deliverResponse st r)
    by_cases hc : st.pending.contains r.invocationId
    · have hst : deliverResponse st r
          = ⟨st.pending.erase r.invocationId, st.resolved ++ [(r.invocationId, r)]⟩ := by
        unfold deliverResponse; rw [if_pos hc]
      rw [hst] at htl
      refine ⟨(r.invocationId, r) :: tl, ?_⟩
      rw [hst, htl]
      simp
    · have hst : deliverResponse st r = st := by
        unfold deliverResponse; rw [if_neg hc]
      rw [hst] at htl
      exact ⟨tl, by rw [hst]; exact htl⟩

theorem resultFor_stable (rs : List InvocationResult) (st : CorrState)
    (i : Nat) (r : InvocationResult) (h : resultFor st i = some r) :
    resultFor (deliverAll st rs) i = some r := by
  obtain ⟨tl, htl⟩ := deliverAll_resolved_extends rs st
  unfold resultFor at h ⊢
  rw [htl, List.find?_append]
  rcases hf : st.resolved.find? (fun p => p.1 == i) with _ | p
  · rw [hf] at h; simp at h
  · rw [hf] at h
    simp [Option.or, hf, ← h]

theorem deliverAll_find (rs : List InvocationResult) (st : CorrState) (i : Nat)
    (hp : i ∈ st.pending) (hr : resultFor st i = none) :
    resultFor (deliverAll st rs) i = rs.find? (fun r => r.invocationId == i) := by
  induction rs generalizing st with
  | nil => simpa [deliverAll] using hr
  | cons r rs ih =>
    show resultFor (deliverAll (deliverResponse st r) rs) i = _
    have hfind : st.resolved.find? (fun p => p.1 == i) = none := by
      unfold resultFor at hr
      rcases hf : st.resolved.find? (fun p => p.1 == i) with _ | p
      · exact hf
      · rw [hf] at hr; simp at hr
    by_cases hid : r.invocationId = i
    · have hc : st.pending.contains r.invocationId = true := by
        rw [hid]; exact List.elem_iff.mpr hp
      have hst : deliverResponse st r
          = ⟨st.pending.erase r.invocationId, st.resolved ++ [(r.invocationId, r)]⟩ := by
        unfold deliverResponse; rw [if_pos hc]
      have hres : resultFor (deliverResponse st r) i = some r := by
        rw [hst]
        unfold resultFor
        rw [List.find?_append, hfind]
        simp [Option.or, List.find?, hid]
      rw [resultFor_stable rs _ i r hres]
      simp [List.find?, hid]
    · have hidb : (r.invocationId == i) = false := beq_eq_false_iff_ne.mpr hid
      by_cases hc : st.pending.contains r.invocationId
      · have hst : deliverResponse st r
            = ⟨st.pending.erase r.invocationId, st.resolved ++ [(r.invocationId, r)]⟩ := by
          unfold deliverResponse; rw [if_pos hc]
        have hp' : i ∈ (deliverResponse st r).pending := by
          rw [hst]
          exact (List.mem_erase_of_ne (fun hc2 => hid hc2.symm)).mpr hp
        have hr' : resultFor (deliverResponse st r) i = none := by
          rw [hst]
          unfold resultFor
          rw [List.find?_append, hfind]
          simp [Option.or, List.find?, hidb]
        rw [ih _ hp' hr']
        simp [List.find?, hidb]
      · have hst : deliverResponse st r = st := by
          unfold deliverResponse; rw [if_neg hc]
        rw [hst, ih st hp hr]
        simp [List.find?, hidb]

end ClientModel

/-! ## Claims -/

/-- C1: an invoke call whose timeout is shorter than the remote handler's
delay is rejected with the client-side cancellation error, whose error
detail is `none`; the server-side `slowEvent` handler still runs to
completion and returns HTTP 200 with the JSON body
`status = completed, delayed = delay`. -/
theorem invoke_timeout_client_cancel (t : ℚ) (d : Int) (s : String)
    (resp : ClientModel.InvocationResult) (hd : 0 ≤ d) (ht : t < (d : ℚ)) :
    (ClientModel.invokeOutcome t (d : ℚ) resp
        = .rejected ClientModel.timeoutCancelError
      ∧ ClientModel.timeoutCancelError.errorDetail = none)
    ∧ InvokeServer.handle_user_event "slowEvent" "application/json"
        (.valid (.obj [("delay", .num d)]) s)
      = .ok ⟨200, "application/json",
          .json (.obj [("status", .str "completed"), ("delayed", .num d)]), []⟩ := by
  constructor
  · exact ⟨by unfold ClientModel.invokeOutcome; rw [if_pos ht], rfl⟩
  · have h : ¬ (d < 0) := by omega
    show InvokeServer.handle_slow_event "application/json"
      (.valid (.obj [("delay", .num d)]) s) = _
    unfold InvokeServer.handle_slow_event pySleep
    simp [json_loads_or_empty, pyDictGet, List.lookup, h]

/-- Witness for C1 at the sample's own input: delay 30, timeout 3. -/
theorem invoke_timeout_client_cancel_witness :
    ((0 : Int) ≤ 30 ∧ (3 : ℚ) < ((30 : Int) : ℚ))
    ∧ ((ClientModel.invokeOutcome 3 ((30 : Int) : ℚ) ⟨1, .json, .empty, true, none⟩
          = .rejected ClientModel.timeoutCancelError
        ∧ ClientModel.timeoutCancelError.errorDetail = none)
      ∧ InvokeServer.handle_user_event "slowEvent" "application/json"
          (.valid (.obj [("delay", .num 30)]) "\x7b\x22delay\x22: 30\x7d")
        = .ok ⟨200, "application/json",
            .json (.obj [("status", .str "completed"), ("delayed", .num 30)]), []⟩) :=
  ⟨⟨by decide, by norm_num⟩,
    invoke_timeout_client_cancel 3 30 "\x7b\x22delay\x22: 30\x7d"
      ⟨1, .json, .empty, true, none⟩ (by decide) (by norm_num)⟩

/-- C2: responses are delivered to waiters solely by correlation id —
the waiter of id `i` receives exactly the first arriving response that
carries id `i` (independently of every other waiter and of arrival
order), and never a response carrying a different id. -/
theorem invoke_correlation_by_id (ids : List Nat)
    (rs : List ClientModel.InvocationResult) (i : Nat) (h : i ∈ ids) :
    ClientModel.resultFor (ClientModel.deliverAll ⟨ids, []⟩ rs) i
      = rs.find? (fun r => r.invocationId == i)
    ∧ ∀ r, ClientModel.resultFor (ClientModel.deliverAll ⟨ids, []⟩ rs) i = some r
        → r.invocationId = i := by
  have h1 := ClientModel.deliverAll_find rs ⟨ids, []⟩ i h rfl
  refine ⟨h1, fun r hr => ?_⟩
  rw [h1] at hr
  simpa using List.find?_some hr

/-- Witness for C2: three concurrent echo invokes with ids 1, 2, 3 whose
responses arrive out of order; waiter 1 gets its own response. -/
theorem invoke_correlation_by_id_witness :
    1 ∈ [1, 2, 3]
    ∧ (ClientModel.resultFor (ClientModel.deliverAll ⟨[1, 2, 3], []⟩
          [ClientModel.echoResult 3 "concurrent-2", ClientModel.echoResult 1 "concurrent-0",
            ClientModel.echoResult 2 "concurrent-1"]) 1
        = [ClientModel.echoResult 3 "concurrent-2", ClientModel.echoResult 1 "concurrent-0",
            ClientModel.echoResult 2 "concurrent-1"].find? (fun r => r.invocationId == 1)
      ∧ ∀ r, ClientModel.resultFor (ClientModel.deliverAll ⟨[1, 2, 3], []⟩
          [ClientModel.echoResult 3 "concurrent-2", ClientModel.echoResult 1 "concurrent-0",
            ClientModel.echoResult 2 "concurrent-1"]) 1 = some r
          → r.invocationId = 1) :=
  ⟨by decide,
    invoke_correlation_by_id [1, 2, 3]
      [ClientModel.echoResult 3 "concurrent-2", ClientModel.echoResult 1 "concurrent-0",
        ClientModel.echoResult 2 "concurrent-1"] 1 (by decide)⟩

/-- C3: the upstream HTTP response's content type selects the data type
delivered to the invoking caller (`application/json` to json,
`text/plain` to text, anything else to binary); the echo handler returns
the request body unchanged with status 200 and content type
`text/plain`, so the caller resolves with the body as text and
`success = true`. -/
theorem echo_content_type_selection (body : RawBody) (ct : String) (iid : Nat)
    (h1 : ct ≠ "application/json") (h2 : ct ≠ "text/plain") :
    ClientModel.dataTypeOfContentType "application/json" = .json
    ∧ ClientModel.dataTypeOfContentType "text/plain" = .text
    ∧ ClientModel.dataTypeOfContentType ct = .binary
    ∧ (∀ resp : HttpResponse,
        (ClientModel.relayResponse iid resp).dataType
          = ClientModel.dataTypeOfContentType resp.contentType)
    ∧ InvokeServer.handle_user_event "echo" "text/plain" body
        = .ok ⟨200, "text/plain", .text body.raw, []⟩
    ∧ ClientModel.relayResponse iid ⟨200, "text/plain", .text body.raw, []⟩
        = ⟨iid, .text, .text body.raw, true, none⟩ := by
  refine ⟨rfl, rfl, ?_, fun resp => rfl, rfl, rfl⟩
  unfold ClientModel.dataTypeOfContentType
  simp [beq_eq_false_iff_ne.mpr h1, beq_eq_false_iff_ne.mpr h2]

/-- Witness for C3 at the sample's own input: echo of the text body
`hello`, and a non-json/non-text content type mapping to binary. -/
theorem echo_content_type_selection_witness :
    ("application/octet-stream" ≠ "application/json"
      ∧ "application/octet-stream" ≠ "text/plain")
    ∧ (ClientModel.dataTypeOfContentType "application/json" = .json
      ∧ ClientModel.dataTypeOfContentType "text/plain" = .text
      ∧ ClientModel.dataTypeOfContentType "application/octet-stream" = .binary
      ∧ (∀ resp : HttpResponse,
          (ClientModel.relayResponse 2 resp).dataType
            = ClientModel.dataTypeOfContentType resp.contentType)
      ∧ InvokeServer.handle_user_event "echo" "text/plain" (.invalid "hello")
          = .ok ⟨200, "text/plain", .text (RawBody.invalid "hello").raw, []⟩
      ∧ ClientModel.relayResponse 2 ⟨200, "text/plain", .text (RawBody.invalid "hello").raw, []⟩
          = ⟨2, .text, .text (RawBody.invalid "hello").raw, true, none⟩) :=
  ⟨⟨by decide, by decide⟩,
    echo_content_type_selection (.invalid "hello") "application/octet-stream" 2
      (by decide) (by decide)⟩

/-- C4: a `processOrder` invocation with body `orderId = n` gets HTTP 200
and a JSON body containing `status = completed` and `orderId = n`, and
the relayed invocation response carries that payload with
`success = true`. -/
theorem process_order_resolves (n : Int) (s : String) (iid : Nat) :
    InvokeServer.handle_user_event "processOrder" "application/json"
        (.valid (.obj [("orderId", .num n)]) s)
      = .ok ⟨200, "application/json",
          .json (.obj [("status", .str "completed"), ("orderId", .num n),
            ("message", .str ("Order " ++ toString n ++ " processed successfully"))]), []⟩
    ∧ List.lookup "status" [("status", Json.str "completed"), ("orderId", Json.num n),
        ("message", Json.str ("Order " ++ toString n ++ " processed successfully"))]
        = some (.str "completed")
    ∧ List.lookup "orderId" [("status", Json.str "completed"), ("orderId", Json.num n),
        ("message", Json.str ("Order " ++ toString n ++ " processed successfully"))]
        = some (.num n)
    ∧ ClientModel.relayResponse iid ⟨200, "application/json",
          .json (.obj [("status", .str "completed"), ("orderId", .num n),
            ("message", .str ("Order " ++ toString n ++ " processed successfully"))]), []⟩
        = ⟨iid, .json,
            .json (.obj [("status", .str "completed"), ("orderId", .num n),
              ("message", .str ("Order " ++ toString n ++ " processed successfully"))]),
            true, none⟩ :=
  ⟨rfl, rfl, rfl, rfl⟩

/-- C5 counterexample: the negotiate endpoint answers a request with a
user id with a body that has a `url` field but no `accessToken` field,
refuting the claim that both fields are present. -/
theorem negotiate_missing_access_token_cex :
    ChatServer.negotiate (some "user1")
        "wss://contoso.webpubsub.azure.com/client/hubs/ChatSampleHub?access_token=abc"
      = ⟨200, "application/json",
          .json (.obj [("url",
            .str "wss://contoso.webpubsub.azure.com/client/hubs/ChatSampleHub?access_token=abc")]),
          []⟩
    ∧ List.lookup "accessToken"
        [("url",
          Json.str "wss://contoso.webpubsub.azure.com/client/hubs/ChatSampleHub?access_token=abc")]
      = none :=
  ⟨rfl, rfl⟩

/-- C5 amended: for every request with a non-empty user id, the
negotiate endpoint responds 200 with a JSON body whose only field is
`url` (the access token is embedded in that url by the external token
service); there is no separate `accessToken` field. -/
theorem negotiate_url_only (id token_url : String) (h : id ≠ "") :
    ChatServer.negotiate (some id) token_url
      = ⟨200, "application/json", .json (.obj [("url", .str token_url)]), []⟩
    ∧ List.lookup "accessToken" [("url", Json.str token_url)] = none := by
  refine ⟨?_, rfl⟩
  unfold ChatServer.negotiate
  simp [beq_eq_false_iff_ne.mpr h]

/-- Witness for the amended C5 at user id `user1`. -/
theorem negotiate_url_only_witness :
    "user1" ≠ ""
    ∧ (ChatServer.negotiate (some "user1") "wss://contoso.example/client"
        = ⟨200, "application/json", .json (.obj [("url", .str "wss://contoso.example/client")]), []⟩
      ∧ List.lookup "accessToken" [("url", Json.str "wss://contoso.example/client")] = none) :=
  ⟨by decide, negotiate_url_only "user1" "wss://contoso.example/client" (by decide)⟩

/-- C6 counterexample: an inbound event whose `ce-type` is not a
recognized system or user variant is answered with HTTP 400 by both
event-handler servers — the request is failed, not ignored non-fatally
as the claim states. -/
theorem unknown_ce_type_cex :
    InvokeServer.handle_event
        ⟨[("ce-type", "com.example.unknown")], some "application/json", .empty⟩
      = .ok ⟨400, flaskDefaultCT, .empty, []⟩
    ∧ ChatServer.handle_event .POST [("ce-type", "com.example.unknown")] .empty 0
      = .ok ⟨400, flaskDefaultCT, .text "Bad Request", []⟩ :=
  ⟨rfl, rfl⟩

/-- C6 amended: an inbound message whose `ce-type` is not a recognized
system or user variant is answered with HTTP 400 (Bad Request) — a
request-level rejection rather than a silent ignore; the dispatcher
itself does not raise, so the connection and process survive. -/
theorem unknown_ce_type_returns_400 (req : Request)
    (hs : List (String × String)) (body : RawBody) (now : Int) (t : String)
    (h1 : (headerGet req.headers "ce-type").getD "" ≠ "azure.webpubsub.sys.connect")
    (h2 : (headerGet req.headers "ce-type").getD "" ≠ "azure.webpubsub.sys.connected")
    (h3 : (headerGet req.headers "ce-type").getD "" ≠ "azure.webpubsub.sys.disconnected")
    (h4 : pyStartsWith ((headerGet req.headers "ce-type").getD "") "azure.webpubsub.user."
      = false)
    (g0 : headerGet hs "ce-type" = some t)
    (g1 : t ≠ "azure.webpubsub.sys.connect")
    (g2 : t ≠ "azure.webpubsub.sys.connected")
    (g3 : t ≠ "azure.webpubsub.sys.disconnected")
    (g4 : t ≠ "azure.webpubsub.user.message")
    (g5 : pyStartsWith t "azure.webpubsub.user." = false) :
    InvokeServer.handle_event req = .ok ⟨400, flaskDefaultCT, .empty, []⟩
    ∧ ChatServer.handle_event .POST hs body now
      = .ok ⟨400, flaskDefaultCT, .text "Bad Request", []⟩ := by
  constructor
  · unfold InvokeServer.handle_event
    simp [beq_eq_false_iff_ne.mpr h1, beq_eq_false_iff_ne.mpr h2,
      beq_eq_false_iff_ne.mpr h3, h4]
  · unfold ChatServer.handle_event
    rw [g0]
    simp [beq_eq_false_iff_ne.mpr g1, beq_eq_false_iff_ne.mpr g2,
      beq_eq_false_iff_ne.mpr g3, beq_eq_false_iff_ne.mpr g4, g5]

/-- Witness for the amended C6 at the concrete unknown type
`com.example.unknown`. -/
theorem unknown_ce_type_returns_400_witness :
    ((headerGet [("ce-type", "com.example.unknown")] "ce-type").getD ""
        ≠ "azure.webpubsub.sys.connect"
      ∧ pyStartsWith ((headerGet [("ce-type", "com.example.unknown")] "ce-type").getD "")
          "azure.webpubsub.user." = false
      ∧ headerGet [("ce-type", "com.example.unknown")] "ce-type" = some "com.example.unknown"
      ∧ pyStartsWith "com.example.unknown" "azure.webpubsub.user." = false)
    ∧ (InvokeServer.handle_event
          ⟨[("ce-type", "com.example.unknown")], some "application/json", .empty⟩
        = .ok ⟨400, flaskDefaultCT, .empty, []⟩
      ∧ ChatServer.handle_event .POST [("ce-type", "com.example.unknown")] .empty 0
        = .ok ⟨400, flaskDefaultCT, .text "Bad Request", []⟩) :=
  ⟨⟨by decide, by decide, by decide, by decide⟩,
    unknown_ce_type_returns_400
      ⟨[("ce-type", "com.example.unknown")], some "application/json", .empty⟩
      [("ce-type", "com.example.unknown")] .empty 0 "com.example.unknown"
      (by decide) (by decide) (by decide) (by decide) (by decide) (by decide)
      (by decide) (by decide) (by decide) (by decide)⟩

/-- C7 counterexample: an OPTIONS request carrying the
`WebHook-Request-Origin` header with an empty value is within the
claim, yet the chat server's truthiness test
`if request.headers.get('WebHook-Request-Origin'):` fails there, the
view falls off the end and returns `None` — an error, not HTTP 200 with
the allow-all header. -/
theorem abuse_protection_empty_origin_cex :
    headerGet [("WebHook-Request-Origin", "")] "WebHook-Request-Origin" = some ""
    ∧ ChatServer.handle_event .OPTIONS [("WebHook-Request-Origin", "")] .empty 0
      = .error .viewReturnedNone :=
  ⟨rfl, rfl⟩

/-- C7 amended: an OPTIONS request carrying the `WebHook-Request-Origin`
header with a non-empty value is answered with HTTP 200 and
`WebHook-Allowed-Origin: *` by both event-handler endpoints (the
invoke-event server answers every OPTIONS request this way; the chat
server requires the non-empty value its truthiness test checks for). -/
theorem abuse_protection_allows_all (hs hs2 : List (String × String))
    (body : RawBody) (now : Int) (o : String)
    (h : headerGet hs2 "WebHook-Request-Origin" = some o) (ho : o ≠ "") :
    InvokeServer.handle_abuse_protection hs
      = ⟨200, flaskDefaultCT, .empty, [("WebHook-Allowed-Origin", "*")]⟩
    ∧ ChatServer.handle_event .OPTIONS hs2 body now
      = .ok ⟨200, flaskDefaultCT, .empty, [("WebHook-Allowed-Origin", "*")]⟩ := by
  refine ⟨rfl, ?_⟩
  unfold ChatServer.handle_event
  rw [h]
  simp [beq_eq_false_iff_ne.mpr ho]

/-- Witness for C7 at a concrete origin header. -/
theorem abuse_protection_allows_all_witness :
    (headerGet [("WebHook-Request-Origin", "https://contoso.example")]
        "WebHook-Request-Origin" = some "https://contoso.example"
      ∧ "https://contoso.example" ≠ "")
    ∧ (InvokeServer.handle_abuse_protection
          [("WebHook-Request-Origin", "https://contoso.example")]
        = ⟨200, flaskDefaultCT, .empty, [("WebHook-Allowed-Origin", "*")]⟩
      ∧ ChatServer.handle_event .OPTIONS
          [("WebHook-Request-Origin", "https://contoso.example")] .empty 0
        = .ok ⟨200, flaskDefaultCT, .empty, [("WebHook-Allowed-Origin", "*")]⟩) :=
  ⟨⟨by decide, by decide⟩,
    abuse_protection_allows_all [("WebHook-Request-Origin", "https://contoso.example")]
      [("WebHook-Request-Origin", "https://contoso.example")] .empty 0
      "https://contoso.example" (by decide) (by decide)⟩

/-- C8: `extract_metadata` returns exactly the mapping whose keys are
the lowercased remainders of the header names that case-insensitively
start with `x-webpubsub-metadata-`, each key bound to the value of the
last such header; headers without that marker never contribute. -/
theorem extract_metadata_exact (hs : List (String × String)) (k : String) :
    List.lookup k (ChatServer.extract_metadata hs)
      = (hs.reverse.find? (ChatServer.metaMatch k)).map (·.2)
    ∧ ((List.lookup k (ChatServer.extract_metadata hs)).isSome
        ↔ ∃ p ∈ hs, ChatServer.metaMatch k p = true)
    ∧ (∀ v, List.lookup k (ChatServer.extract_metadata hs) = some v
        → ∃ p ∈ hs, ChatServer.metaMatch k p = true ∧ p.2 = v) := by
  refine ⟨ChatServer.lookup_extract hs k, ?_, ?_⟩
  · rw [ChatServer.lookup_extract]
    simp [List.find?_isSome, List.mem_reverse]
  · intro v hv
    rw [ChatServer.lookup_extract hs k] at hv
    obtain ⟨p, hfp, hp2⟩ := Option.map_eq_some'.mp hv
    exact ⟨p, List.mem_reverse.mp (List.mem_of_find?_eq_some hfp),
      List.find?_some hfp, hp2⟩

/-- Witness for C8: a concrete pair of headers, one carrying the
metadata marker and one not. -/
theorem extract_metadata_exact_witness :
    List.lookup "traceid" (ChatServer.extract_metadata
        [("X-WebPubSub-Metadata-TraceId", "t1"), ("Content-Type", "text/plain")])
      = some "t1"
    ∧ (∃ p ∈ [("X-WebPubSub-Metadata-TraceId", "t1"), ("Content-Type", "text/plain")],
        ChatServer.metaMatch "traceid" p = true ∧ p.2 = "t1") :=
  ⟨by decide,
    (extract_metadata_exact
        [("X-WebPubSub-Metadata-TraceId", "t1"), ("Content-Type", "text/plain")]
        "traceid").2.2 "t1" (by decide)⟩

/-- C9: on an empty or non-JSON request body the `processOrder` and
`slowEvent` handlers do not raise — `processOrder` answers 200 with
`orderId = "unknown"` and `slowEvent` falls back to the default delay of
30. -/
theorem invalid_body_fallback (ct s : String) :
    InvokeServer.handle_process_order ct .empty
      = .ok ⟨200, "application/json",
          .json (.obj [("status", .str "completed"), ("orderId", .str "unknown"),
            ("message", .str "Order unknown processed successfully")]), []⟩
    ∧ InvokeServer.handle_process_order ct (.invalid s)
      = .ok ⟨200, "application/json",
          .json (.obj [("status", .str "completed"), ("orderId", .str "unknown"),
            ("message", .str "Order unknown processed successfully")]), []⟩
    ∧ InvokeServer.handle_slow_event ct .empty
      = .ok ⟨200, "application/json",
          .json (.obj [("status", .str "completed"), ("delayed", .num 30)]), []⟩
    ∧ InvokeServer.handle_slow_event ct (.invalid s)
      = .ok ⟨200, "application/json",
          .json (.obj [("status", .str "completed"), ("delayed", .num 30)]), []⟩ :=
  ⟨rfl, rfl, rfl, rfl⟩

/-- C10: over a completed run of the timer-triggered broadcast, `etag`
is unchanged when the response carries no `ETag` header, `start_count`
is unchanged when the status is not 200, and the broadcast message
always reports the current `start_count`. -/
theorem broadcast_frame (s : FunctionApp.FState) (res : FunctionApp.PollResponse)
    (out : FunctionApp.FState × Json) (h : FunctionApp.broadcast s res = .ok out) :
    (res.etagHeader = none → out.1.etag = s.etag)
    ∧ (res.status ≠ 200 → out.1.start_count = s.start_count)
    ∧ out.2 = FunctionApp.broadcastMessage out.1.start_count := by
  unfold FunctionApp.broadcast at h
  rcases hc : FunctionApp.nextCount s res with e | sc
  · rw [hc] at h
    simp at h
  · rw [hc] at h
    rw [Except.ok.injEq] at h
    subst h
    refine ⟨?_, ?_, rfl⟩
    · intro hn
      show FunctionApp.nextEtag s res = s.etag
      unfold FunctionApp.nextEtag
      rw [hn]
    · intro h200
      unfold FunctionApp.nextCount at hc
      rw [if_neg (by simpa using h200)] at hc
      rw [Except.ok.injEq] at hc
      exact hc.symm

/-- Witness for C10: a 304 response with no `ETag` header leaves the
whole state unchanged and broadcasts the current count. -/
theorem broadcast_frame_witness :
    FunctionApp.broadcast ⟨"", .num 0⟩ ⟨304, none, .empty⟩
      = .ok (⟨"", .num 0⟩, FunctionApp.broadcastMessage (.num 0))
    ∧ (((⟨304, none, .empty⟩ : FunctionApp.PollResponse).etagHeader = none
        → ((⟨"", Json.num 0⟩ : FunctionApp.FState), FunctionApp.broadcastMessage (.num 0)).1.etag
          = (⟨"", Json.num 0⟩ : FunctionApp.FState).etag)
      ∧ ((⟨304, none, .empty⟩ : FunctionApp.PollResponse).status ≠ 200
        → ((⟨"", Json.num 0⟩ : FunctionApp.FState), FunctionApp.broadcastMessage (.num 0)).1.start_count
          = (⟨"", Json.num 0⟩ : FunctionApp.FState).start_count)
      ∧ ((⟨"", Json.num 0⟩ : FunctionApp.FState), FunctionApp.broadcastMessage (.num 0)).2
        = FunctionApp.broadcastMessage
            ((⟨"", Json.num 0⟩ : FunctionApp.FState), FunctionApp.broadcastMessage (.num 0)).1.start_count) :=
  ⟨rfl, broadcast_frame ⟨"", .num 0⟩ ⟨304, none, .empty⟩
    (⟨"", .num 0⟩, FunctionApp.broadcastMessage (.num 0)) rfl⟩

end SignalRSample
